import Mathlib

/-!
# basic-inference example (`src/examples/basic-inference/main.cpp`)

A shallow embedding of `setup()`.  The TensorFlow Lite Micro runtime, the
model header and the serial port are external collaborators: what they
answer is collected in an environment record `Env`, and every call that
`setup()` makes on them is recorded, in program order, as an `Event` of a
trace.  Array accesses are total (Option-indexed): an access outside the
array ends the run with a `Fault`, the trace holding what happened before.
-/

namespace BasicInference

/-- Status code of the runtime (`TfLiteStatus`).  The enumeration lives in a
header outside the example; the example only ever compares with
`kTfLiteOk`, so every other enumerator is `notOk code`. -/
inductive TfLiteStatus where
  | kTfLiteOk
  | notOk (code : Nat)
  deriving DecidableEq, Repr

/-- A `float` is carried by its IEEE-754 bit pattern; `0.0f` is pattern 0.
No float arithmetic is performed by `setup()`, values are only copied. -/
abbrev F32 := Nat

/-- Shape record of a tensor (`TfLiteIntArray`): the `size` field and the
entries actually stored behind `data`. -/
structure TfLiteIntArray where
  size : Int
  data : List Int
  deriving DecidableEq, Repr

/-- The fields of `TfLiteTensor` read by `setup()`: `dims` and `bytes`.  The
buffer behind `data.f` is `bytes` bytes long, so element `i` of the float
view lies inside it exactly when `4 * i + 4 ≤ bytes`. -/
structure TfLiteTensor where
  dims : TfLiteIntArray
  bytes : Nat
  deriving DecidableEq, Repr

/-- Everything `setup()` obtains from outside.
`schemaVersion` is `TFLITE_SCHEMA_VERSION` (defined in a runtime header),
`arduino` says whether `ARDUINO` is defined, `input0`/`output0` are the
pointers returned by `interpreter->input(0)` / `output(0)` (`none` is the
null pointer). -/
structure Env where
  modelVersion : Nat
  schemaVersion : Nat
  arduino : Bool
  allocateStatus : TfLiteStatus
  arenaUsedBytes : Nat
  input0 : Option TfLiteTensor
  invokeStatus : TfLiteStatus
  output0 : Option TfLiteTensor
  deriving Repr

/-- One observable action of `setup()`. -/
inductive Event where
  /-- Call `tflite::GetModel(lstm_tflite)`. -/
  | getModel
  /-- Call `Serial.print` on a string literal. -/
  | serialPrint (s : String)
  /-- Call `Serial.print` on a number. -/
  | serialPrintNum (n : Int)
  /-- Call `Serial.println` on a string literal. -/
  | serialPrintln (s : String)
  /-- Call `Serial.println` on a number. -/
  | serialPrintlnNum (n : Int)
  /-- Call `TF_LITE_REPORT_ERROR(error_reporter, format, args...)`. -/
  | reportError (format : String) (args : List Int)
  /-- Construction of `static_interpreter` over a buffer of `arenaLength`
  bytes with the announced capacity `capacity` -/
  | newInterpreter (arenaLength capacity : Nat)
  /-- Call `interpreter->AllocateTensors()`. -/
  | allocateTensors
  /-- Call `interpreter->arena_used_bytes()`. -/
  | arenaUsedBytes
  /-- Call `interpreter->input(index)`. -/
  | input (index : Nat)
  /-- Read of `input_data[i]`. -/
  | readInputData (i : Nat)
  /-- Store `input->data.f[i] = v`. -/
  | writeInputF (i : Nat) (v : F32)
  /-- Call `interpreter->Invoke()`. -/
  | invoke
  /-- Call `interpreter->output(index)`. -/
  | output (index : Nat)
  deriving DecidableEq, Repr

/-- Ways a run leaves defined behaviour. -/
inductive Fault where
  /-- Dereference of a null tensor pointer -/
  | nullTensor
  /-- Read of `dims->data[i]` past the stored entries -/
  | dimsOutOfBounds (i : Nat)
  /-- Read of `input_data[i]` past the local array -/
  | inputDataOutOfBounds (i : Nat)
  /-- Store to `input->data.f[i]` past the buffer of the tensor -/
  | tensorDataOutOfBounds (i : Nat)
  deriving DecidableEq, Repr

/-- Result of running a piece of `setup()`: the events in program order and
the fault that stopped it, if any. -/
structure Run where
  trace : List Event
  fault : Option Fault
  deriving DecidableEq, Repr

/-- Straight-line events that cannot fault. -/
def Run.emit (es : List Event) : Run := ⟨es, none⟩

/-- Sequential composition: `k` runs only when `r` did not fault. -/
def Run.seq (r k : Run) : Run :=
  match r.fault with
  | some f => ⟨r.trace, some f⟩
  | none => ⟨r.trace ++ k.trace, k.fault⟩

/-- Macro `#define RAM_SIZE 400000`. -/
def RAM_SIZE : Nat := 400000

/-- Global `uint8_t tensor_arena[RAM_SIZE];`. -/
def tensor_arena : List Nat := List.replicate RAM_SIZE 0

/-- Local `float input_data[3105 * 5]`, zero-initialised. -/
def input_data : List F32 := List.replicate (3105 * 5) 0

/-- The loop `for (int i = 0; i < t->dims->size; i++)` of a descriptor
report, entered at counter value `i`; `name` is `"Input"` or `"Output"`. -/
def reportDims (name : String) (dims : TfLiteIntArray) (i : Nat) : Run :=
  if (i : Int) < dims.size then
    match dims.data[i]? with
    | none => ⟨[.serialPrint (name ++ " dim "), .serialPrintNum i, .serialPrint ": "],
               some (.dimsOutOfBounds i)⟩
    | some d =>
      Run.seq
        (Run.emit [.serialPrint (name ++ " dim "), .serialPrintNum i, .serialPrint ": ",
                   .serialPrintlnNum d])
        (reportDims name dims (i + 1))
  else Run.emit []
termination_by (dims.size - i).toNat
decreasing_by omega

/-- The descriptor report (lines 122-133 for the input tensor, lines 162-173
for the output tensor; the two blocks differ only in the word `name`). -/
def reportTensor (name : String) (t : TfLiteTensor) : Run :=
  Run.seq
    (Run.emit [.serialPrint (name ++ " size: "), .serialPrintlnNum t.dims.size,
               .serialPrint (name ++ " bytes: "), .serialPrintlnNum t.bytes])
    (reportDims name t.dims 0)

/-- The copy loop `for (int i = 0; i < input->bytes; i++)
input->data.f[i] = input_data[i];` entered at counter value `i`, reading
from the local array `src`.  The right operand is read before the store. -/
def copyLoop (src : List F32) (bytes : Nat) (i : Nat) : Run :=
  if i < bytes then
    match src[i]? with
    | none => ⟨[], some (.inputDataOutOfBounds i)⟩
    | some v =>
      if 4 * i + 4 ≤ bytes then
        Run.seq (Run.emit [.readInputData i, .writeInputF i v]) (copyLoop src bytes (i + 1))
      else ⟨[.readInputData i], some (.tensorDataOutOfBounds i)⟩
  else Run.emit []
termination_by bytes - i

/-- Lines 146-155: `Invoke()` and the report of its status. -/
def invokeStep (env : Env) : Run :=
  Run.seq (Run.emit [.invoke])
    (if env.invokeStatus ≠ .kTfLiteOk then Run.emit [.reportError "Invoke failed" []]
     else Run.emit [.serialPrintln "Invoke completed"])

/-- Lines 157-173: `output(0)` and its descriptor report. -/
def outputStep (env : Env) : Run :=
  Run.seq (Run.emit [.output 0])
    (match env.output0 with
     | none => ⟨[], some .nullTensor⟩
     | some t => reportTensor "Output" t)

/-- Lines 117-144: `input(0)`, its descriptor report and the copy loop. -/
def inputStep (env : Env) : Run :=
  Run.seq (Run.emit [.input 0])
    (match env.input0 with
     | none => ⟨[], some .nullTensor⟩
     | some t => Run.seq (reportTensor "Input" t) (copyLoop input_data t.bytes 0))

/-- Lines 104-115: `AllocateTensors()` and the report of its status. -/
def allocateStep (env : Env) : Run :=
  Run.seq (Run.emit [.allocateTensors])
    (if env.allocateStatus ≠ .kTfLiteOk then
       Run.emit [.reportError "Tensor allocation failed" []]
     else
       Run.emit [.serialPrintln "Tensor allocation success", .serialPrint "Used bytes: ",
                 .arenaUsedBytes, .serialPrintlnNum env.arenaUsedBytes])

/-- Lines 76-85: what is reported when the schema versions differ. -/
def versionMismatchReport (env : Env) : List Event :=
  (if env.arduino then
     [.serialPrint "Model provided is schema version ", .serialPrintNum env.modelVersion,
      .serialPrint " not equal to supported version ", .serialPrintlnNum env.schemaVersion]
   else []) ++
  [.reportError "Model provided is schema version %d not equal to supported version %d."
     [env.modelVersion, env.schemaVersion]]

/-- Function `void setup()`.  On the board it runs once, at boot, so the
function-local statics are constructed in this very run. -/
def setup (env : Env) : Run :=
  if env.modelVersion ≠ env.schemaVersion then
    Run.emit (.getModel :: versionMismatchReport env)
  else
    Run.seq (Run.emit [.getModel, .newInterpreter tensor_arena.length RAM_SIZE])
      (Run.seq (allocateStep env)
        (Run.seq (inputStep env)
          (Run.seq (invokeStep env) (outputStep env))))


/-! ## Vocabulary of the properties -/

/-- Events that construct, query or drive the interpreter or store into its
input tensor. -/
def Event.usesInterpreter : Event → Bool
  | .newInterpreter _ _ => true
  | .allocateTensors => true
  | .arenaUsedBytes => true
  | .input _ => true
  | .writeInputF _ _ => true
  | .invoke => true
  | .output _ => true
  | _ => false

/-- Error reports. -/
def Event.isError : Event → Bool
  | .reportError _ _ => true
  | _ => false

/-- Constructions of the interpreter. -/
def Event.isNewInterpreter : Event → Bool
  | .newInterpreter _ _ => true
  | _ => false

/-- Events a descriptor report for `name` may emit. -/
def Event.isReportOf (name : String) : Event → Bool
  | .serialPrint s =>
      s == name ++ " size: " || s == name ++ " bytes: " || s == name ++ " dim " || s == ": "
  | .serialPrintNum _ => true
  | .serialPrintlnNum _ => true
  | _ => false

/-- Events of the copy loop. -/
def Event.isCopy : Event → Bool
  | .readInputData _ => true
  | .writeInputF _ _ => true
  | _ => false

/-- The dimension entries of a descriptor report as the specification words
them: one entry per listed dimension, numbered upwards from `i`, each the
pair (index, dimension). -/
def dimEntries (name : String) : Nat → List Int → List Event
  | _, [] => []
  | i, d :: ds =>
      [.serialPrint (name ++ " dim "), .serialPrintNum i, .serialPrint ": ",
       .serialPrintlnNum d] ++ dimEntries name (i + 1) ds

/-- The descriptor report as the specification words it: the rank, the byte
length, then the entries of the first `n` dimensions. -/
def expectedReport (name : String) (n : Nat) (t : TfLiteTensor) : List Event :=
  [.serialPrint (name ++ " size: "), .serialPrintlnNum n,
   .serialPrint (name ++ " bytes: "), .serialPrintlnNum t.bytes] ++
  dimEntries name 0 (t.dims.data.take n)


/-! ## Concrete runs used below -/

/-- A float32 tensor of shape `[0]`: no element, no byte. -/
def emptyTensor : TfLiteTensor := ⟨⟨1, [0]⟩, 0⟩

/-- A float32 tensor of shape `[1]`: one element, four bytes. -/
def oneFloatTensor : TfLiteTensor := ⟨⟨1, [1]⟩, 4⟩

/-- The input of the example model: float32 of shape `[1,3105,5]`, 15525
elements, 62100 bytes. -/
def lstmInput : TfLiteTensor := ⟨⟨3, [1, 3105, 5]⟩, 62100⟩

/-- A float32 output of shape `[1,1]`. -/
def lstmOutput : TfLiteTensor := ⟨⟨2, [1, 1]⟩, 4⟩

/-- A model of schema version 2 on a runtime supporting version 3. -/
def mismatchEnv : Env :=
  { modelVersion := 2, schemaVersion := 3, arduino := true, allocateStatus := .kTfLiteOk,
    arenaUsedBytes := 0, input0 := some lstmInput, invokeStatus := .kTfLiteOk,
    output0 := some lstmOutput }

/-- The example as shipped: matching versions, successful allocation, the
input tensor of the model. -/
def scenarioEnv : Env :=
  { modelVersion := 3, schemaVersion := 3, arduino := true, allocateStatus := .kTfLiteOk,
    arenaUsedBytes := 300000, input0 := some lstmInput, invokeStatus := .kTfLiteOk,
    output0 := some lstmOutput }

/-- The example with `AllocateTensors()` answering `kTfLiteError`. -/
def allocFailScenarioEnv : Env :=
  { scenarioEnv with allocateStatus := .notOk 1, invokeStatus := .notOk 1 }

/-- A run whose allocation fails and whose input tensor is empty, so that
the copy loop has nothing to do. -/
def allocFailEnv : Env :=
  { modelVersion := 3, schemaVersion := 3, arduino := true, allocateStatus := .notOk 1,
    arenaUsedBytes := 0, input0 := some emptyTensor, invokeStatus := .notOk 1,
    output0 := some lstmOutput }

/-- A run in which every runtime call succeeds, on an empty input tensor. -/
def emptyEnv : Env :=
  { modelVersion := 3, schemaVersion := 3, arduino := true, allocateStatus := .kTfLiteOk,
    arenaUsedBytes := 1024, input0 := some emptyTensor, invokeStatus := .kTfLiteOk,
    output0 := some lstmOutput }

/-- A run on a four-byte input tensor. -/
def oneFloatEnv : Env :=
  { emptyEnv with input0 := some oneFloatTensor }


/-! ## Sequencing -/

theorem Run.seq_emit (es : List Event) (k : Run) :
    Run.seq (Run.emit es) k = ⟨es ++ k.trace, k.fault⟩ := rfl

theorem Run.seq_of_ok {r : Run} (k : Run) (h : r.fault = none) :
    Run.seq r k = ⟨r.trace ++ k.trace, k.fault⟩ := by
  simp [Run.seq, h]

theorem Run.seq_of_fault {r : Run} (k : Run) {f : Fault} (h : r.fault = some f) :
    Run.seq r k = ⟨r.trace, some f⟩ := by
  simp [Run.seq, h]

theorem Run.mem_seq {r k : Run} {e : Event} (h : e ∈ (Run.seq r k).trace) :
    e ∈ r.trace ∨ e ∈ k.trace := by
  unfold Run.seq at h
  cases hf : r.fault with
  | none => rw [hf] at h; simpa using h
  | some f => rw [hf] at h; exact Or.inl h

/-! ## The dimension loop and the descriptor report -/

theorem reportDims_eq (name : String) (dims : TfLiteIntArray) (n : Nat)
    (hsize : dims.size = n) (hlen : n ≤ dims.data.length) :
    ∀ (k i : Nat), i + k = n →
      reportDims name dims i = Run.emit (dimEntries name i ((dims.data.take n).drop i)) := by
  intro k
  induction k with
  | zero =>
    intro i hi
    have hin : i = n := by omega
    rw [reportDims]
    have h1 : ¬ ((i : Int) < dims.size) := by rw [hsize]; omega
    rw [if_neg h1]
    have h2 : (dims.data.take n).drop i = [] := by
      apply List.drop_eq_nil_of_le
      rw [List.length_take]; omega
    rw [h2]; rfl
  | succ k ih =>
    intro i hi
    have hlt : i < dims.data.length := by omega
    rw [reportDims]
    have h1 : (i : Int) < dims.size := by rw [hsize]; omega
    rw [if_pos h1]
    have h2 : dims.data[i]? = some dims.data[i] := List.getElem?_eq_getElem hlt
    rw [h2]
    simp only []
    rw [ih (i + 1) (by omega), Run.seq_emit]
    have h3 : (dims.data.take n).drop i
        = dims.data[i] :: (dims.data.take n).drop (i + 1) := by
      have hlt2 : i < (dims.data.take n).length := by rw [List.length_take]; omega
      rw [List.drop_eq_getElem_cons hlt2]
      congr 1
      simp [List.getElem_take]
    rw [h3]
    simp [Run.emit, dimEntries]

theorem reportTensor_eq (name : String) (t : TfLiteTensor) (n : Nat)
    (hsize : t.dims.size = n) (hlen : n ≤ t.dims.data.length) :
    reportTensor name t = Run.emit (expectedReport name n t) := by
  unfold reportTensor
  rw [reportDims_eq name t.dims n hsize hlen n 0 (by omega), Run.seq_emit]
  simp [Run.emit, expectedReport, hsize]

theorem length_dimEntries (name : String) (i : Nat) (ds : List Int) :
    (dimEntries name i ds).length = 4 * ds.length := by
  induction ds generalizing i with
  | nil => rfl
  | cons d ds ih => simp [dimEntries, ih]; omega


theorem mem_reportDims (name : String) (dims : TfLiteIntArray) :
    ∀ (k i : Nat), (dims.size - i).toNat ≤ k →
      ∀ e ∈ (reportDims name dims i).trace, e.isReportOf name = true := by
  intro k
  induction k with
  | zero =>
    intro i hk e he
    rw [reportDims] at he
    have h1 : ¬ ((i : Int) < dims.size) := by omega
    rw [if_neg h1] at he
    simp [Run.emit] at he
  | succ k ih =>
    intro i hk e he
    rw [reportDims] at he
    by_cases h1 : (i : Int) < dims.size
    · rw [if_pos h1] at he
      cases hd : dims.data[i]? with
      | none =>
        rw [hd] at he
        simp only [List.mem_cons, List.mem_singleton, List.not_mem_nil, or_false] at he
        rcases he with rfl | rfl | rfl <;> simp [Event.isReportOf]
      | some d =>
        rw [hd] at he
        simp only [] at he
        rcases Run.mem_seq he with h | h
        · simp only [Run.emit, List.mem_cons, List.mem_singleton, List.not_mem_nil,
            or_false] at h
          rcases h with rfl | rfl | rfl | rfl <;> simp [Event.isReportOf]
        · exact ih (i + 1) (by omega) e h
    · rw [if_neg h1] at he
      simp [Run.emit] at he

theorem mem_reportTensor (name : String) (t : TfLiteTensor) :
    ∀ e ∈ (reportTensor name t).trace, e.isReportOf name = true := by
  intro e he
  unfold reportTensor at he
  rcases Run.mem_seq he with h | h
  · simp only [Run.emit, List.mem_cons, List.mem_singleton, List.not_mem_nil,
      or_false] at h
    rcases h with rfl | rfl | rfl | rfl <;> simp [Event.isReportOf]
  · exact mem_reportDims name t.dims _ 0 (le_refl _) e h

/-! ## The copy loop -/

theorem input_data_get (i : Nat) :
    input_data[i]? = if i < 15525 then some 0 else none := by
  unfold input_data
  rw [List.getElem?_replicate]

theorem copyLoop_zero (src : List F32) : copyLoop src 0 0 = Run.emit [] := by
  rw [copyLoop]; simp

theorem mem_copyLoop (src : List F32) (bytes : Nat) :
    ∀ (k i : Nat), bytes - i ≤ k →
      ∀ e ∈ (copyLoop src bytes i).trace, e.isCopy = true := by
  intro k
  induction k with
  | zero =>
    intro i hk e he
    rw [copyLoop] at he
    have h1 : ¬ (i < bytes) := by omega
    rw [if_neg h1] at he
    simp [Run.emit] at he
  | succ k ih =>
    intro i hk e he
    rw [copyLoop] at he
    by_cases h1 : i < bytes
    · rw [if_pos h1] at he
      cases hd : src[i]? with
      | none => rw [hd] at he; simp at he
      | some v =>
        rw [hd] at he
        simp only [] at he
        by_cases h2 : 4 * i + 4 ≤ bytes
        · rw [if_pos h2] at he
          rcases Run.mem_seq he with h | h
          · simp only [Run.emit, List.mem_cons, List.mem_singleton, List.not_mem_nil,
              or_false] at h
            rcases h with rfl | rfl <;> simp [Event.isCopy]
          · exact ih (i + 1) (by omega) e h
        · rw [if_neg h2] at he
          simp only [List.mem_singleton] at he
          subst he; simp [Event.isCopy]
    · rw [if_neg h1] at he
      simp [Run.emit] at he

/-- The loop started inside a non-empty tensor always ends in a fault: the
counter runs up to the byte length while the float view holds a quarter as
many elements. -/
theorem copyLoop_fault_of_lt (src : List F32) (bytes : Nat) :
    ∀ (k i : Nat), bytes - i ≤ k → i < bytes → (copyLoop src bytes i).fault ≠ none := by
  intro k
  induction k with
  | zero => intro i hk hi; omega
  | succ k ih =>
    intro i hk hi
    rw [copyLoop, if_pos hi]
    cases hd : src[i]? with
    | none => simp
    | some v =>
      simp only []
      by_cases h2 : 4 * i + 4 ≤ bytes
      · rw [if_pos h2, Run.seq_emit]
        exact ih (i + 1) (by omega) (by omega)
      · rw [if_neg h2]; simp

theorem copyLoop_ok_iff (src : List F32) (bytes : Nat) :
    (copyLoop src bytes 0).fault = none ↔ bytes = 0 := by
  constructor
  · intro h
    by_contra hb
    exact copyLoop_fault_of_lt src bytes bytes 0 (by omega) (by omega) h
  · rintro rfl; rw [copyLoop_zero]; rfl

/-- First iteration on a buffer of at least one float. -/
theorem copyLoop_first (bytes : Nat) (h : 4 ≤ bytes) :
    copyLoop input_data bytes 0 =
      Run.seq (Run.emit [.readInputData 0, .writeInputF 0 0]) (copyLoop input_data bytes 1) := by
  rw [copyLoop, if_pos (by omega), input_data_get]
  simp [h]

/-- In the scenario of the example (62100 bytes) every element below 15525
is copied and the loop goes on to index 15525. -/
theorem copyLoop_scenario :
    ∀ (k i : Nat), i + k = 15525 →
      (copyLoop input_data 62100 i).fault = some (.inputDataOutOfBounds 15525) ∧
      (copyLoop input_data 62100 i).trace.length = 2 * k := by
  intro k
  induction k with
  | zero =>
    intro i hi
    have : i = 15525 := by omega
    subst this
    rw [copyLoop, if_pos (by omega), input_data_get]
    simp
  | succ k ih =>
    intro i hi
    rw [copyLoop, if_pos (by omega), input_data_get, if_pos (by omega)]
    simp only []
    rw [if_pos (by omega), Run.seq_emit]
    obtain ⟨h1, h2⟩ := ih (i + 1) (by omega)
    refine ⟨h1, ?_⟩
    simp [h2]; omega


/-! ## The steps of `setup()` -/

theorem allocateStep_fault (env : Env) : (allocateStep env).fault = none := by
  unfold allocateStep
  split <;> rfl

theorem allocateStep_trace (env : Env) :
    (allocateStep env).trace =
      if env.allocateStatus ≠ .kTfLiteOk then
        [.allocateTensors, .reportError "Tensor allocation failed" []]
      else
        [.allocateTensors, .serialPrintln "Tensor allocation success",
         .serialPrint "Used bytes: ", .arenaUsedBytes, .serialPrintlnNum env.arenaUsedBytes] := by
  unfold allocateStep
  split <;> rfl

theorem invokeStep_fault (env : Env) : (invokeStep env).fault = none := by
  unfold invokeStep
  split <;> rfl

theorem invokeStep_trace (env : Env) :
    (invokeStep env).trace =
      if env.invokeStatus ≠ .kTfLiteOk then [.invoke, .reportError "Invoke failed" []]
      else [.invoke, .serialPrintln "Invoke completed"] := by
  unfold invokeStep
  split <;> rfl

theorem mem_inputStep (env : Env) (e : Event) (he : e ∈ (inputStep env).trace) :
    e = .input 0 ∨ e.isReportOf "Input" = true ∨ e.isCopy = true := by
  unfold inputStep at he
  rcases Run.mem_seq he with h | h
  · left; simpa [Run.emit] using h
  · cases hi : env.input0 with
    | none => rw [hi] at h; simp at h
    | some t =>
      rw [hi] at h
      simp only [] at h
      rcases Run.mem_seq h with h1 | h1
      · exact Or.inr (Or.inl (mem_reportTensor "Input" t e h1))
      · exact Or.inr (Or.inr (mem_copyLoop input_data t.bytes _ 0 (le_refl _) e h1))

theorem mem_outputStep (env : Env) (e : Event) (he : e ∈ (outputStep env).trace) :
    e = .output 0 ∨ e.isReportOf "Output" = true := by
  unfold outputStep at he
  rcases Run.mem_seq he with h | h
  · left; simpa [Run.emit] using h
  · cases hi : env.output0 with
    | none => rw [hi] at h; simp at h
    | some t =>
      rw [hi] at h
      exact Or.inr (mem_reportTensor "Output" t e h)

theorem not_mem_inputStep (env : Env) (e : Event) (h0 : e ≠ .input 0)
    (h1 : e.isReportOf "Input" = false) (h2 : e.isCopy = false) :
    e ∉ (inputStep env).trace := by
  intro he
  rcases mem_inputStep env e he with h | h | h
  · exact h0 h
  · rw [h1] at h; exact Bool.false_ne_true h
  · rw [h2] at h; exact Bool.false_ne_true h

theorem not_mem_outputStep (env : Env) (e : Event) (h0 : e ≠ .output 0)
    (h1 : e.isReportOf "Output" = false) :
    e ∉ (outputStep env).trace := by
  intro he
  rcases mem_outputStep env e he with h | h
  · exact h0 h
  · rw [h1] at h; exact Bool.false_ne_true h

/-- Shape of `inputStep` on a tensor whose shape record is well formed. -/
theorem inputStep_eq (env : Env) (t : TfLiteTensor) (n : Nat) (hin : env.input0 = some t)
    (hsize : t.dims.size = n) (hlen : n ≤ t.dims.data.length) :
    inputStep env =
      ⟨[.input 0] ++ expectedReport "Input" n t ++ (copyLoop input_data t.bytes 0).trace,
       (copyLoop input_data t.bytes 0).fault⟩ := by
  unfold inputStep
  rw [hin]
  simp only []
  rw [reportTensor_eq "Input" t n hsize hlen, Run.seq_emit, Run.seq_emit]
  simp

theorem inputStep_trace_eq (env : Env) (t : TfLiteTensor) (n : Nat)
    (hin : env.input0 = some t) (hsize : t.dims.size = n) (hlen : n ≤ t.dims.data.length) :
    (inputStep env).trace =
      [.input 0] ++ expectedReport "Input" n t ++ (copyLoop input_data t.bytes 0).trace := by
  rw [inputStep_eq env t n hin hsize hlen]

theorem inputStep_fault_eq (env : Env) (t : TfLiteTensor) (n : Nat)
    (hin : env.input0 = some t) (hsize : t.dims.size = n) (hlen : n ≤ t.dims.data.length) :
    (inputStep env).fault = (copyLoop input_data t.bytes 0).fault := by
  rw [inputStep_eq env t n hin hsize hlen]

/-- Shape of `outputStep` on a tensor whose shape record is well formed. -/
theorem outputStep_eq (env : Env) (t : TfLiteTensor) (n : Nat) (hout : env.output0 = some t)
    (hsize : t.dims.size = n) (hlen : n ≤ t.dims.data.length) :
    outputStep env = ⟨[.output 0] ++ expectedReport "Output" n t, none⟩ := by
  unfold outputStep
  rw [hout]
  simp only []
  rw [reportTensor_eq "Output" t n hsize hlen, Run.seq_emit]
  simp [Run.emit]

/-! ## The whole of `setup()` -/

theorem tensor_arena_length : tensor_arena.length = 400000 := by
  unfold tensor_arena RAM_SIZE
  exact List.length_replicate _ _

theorem setup_mismatch (env : Env) (h : env.modelVersion ≠ env.schemaVersion) :
    setup env = ⟨.getModel :: versionMismatchReport env, none⟩ := by
  unfold setup
  rw [if_pos h]; rfl

theorem setup_match (env : Env) (h : env.modelVersion = env.schemaVersion) :
    setup env =
      Run.seq (Run.emit [.getModel, .newInterpreter 400000 400000])
        (Run.seq (allocateStep env)
          (Run.seq (inputStep env) (Run.seq (invokeStep env) (outputStep env)))) := by
  unfold setup
  rw [if_neg (not_not.mpr h), tensor_arena_length]
  rfl

/-- Trace of a run that passed the version check. -/
theorem setup_trace (env : Env) (h : env.modelVersion = env.schemaVersion) :
    (setup env).trace =
      [.getModel, .newInterpreter 400000 400000] ++ (allocateStep env).trace ++
        (inputStep env).trace ++
        (if (inputStep env).fault = none then
           (invokeStep env).trace ++ (outputStep env).trace
         else []) := by
  rw [setup_match env h, Run.seq_emit, Run.seq_of_ok _ (allocateStep_fault env)]
  cases hf : (inputStep env).fault with
  | none =>
    rw [Run.seq_of_ok _ hf, Run.seq_of_ok _ (invokeStep_fault env)]
    simp
  | some f =>
    rw [Run.seq_of_fault _ hf]
    simp

/-- Fault of a run that passed the version check. -/
theorem setup_fault (env : Env) (h : env.modelVersion = env.schemaVersion) :
    (setup env).fault =
      match (inputStep env).fault with
      | some f => some f
      | none => (outputStep env).fault := by
  rw [setup_match env h, Run.seq_emit, Run.seq_of_ok _ (allocateStep_fault env)]
  cases hf : (inputStep env).fault with
  | none =>
    rw [Run.seq_of_ok _ hf, Run.seq_of_ok _ (invokeStep_fault env)]
  | some f =>
    rw [Run.seq_of_fault _ hf]

/-- Occurrences of an event in a run that passed the version check. -/
theorem setup_count (env : Env) (h : env.modelVersion = env.schemaVersion) (e : Event) :
    (setup env).trace.count e =
      [Event.getModel, .newInterpreter 400000 400000].count e +
        (allocateStep env).trace.count e + (inputStep env).trace.count e +
        (if (inputStep env).fault = none then
           (invokeStep env).trace.count e + (outputStep env).trace.count e
         else 0) := by
  rw [setup_trace env h]
  simp only [List.count_append]
  split <;> simp

/-- Membership in the trace of a run that passed the version check. -/
theorem mem_setup (env : Env) (h : env.modelVersion = env.schemaVersion) (e : Event)
    (he : e ∈ (setup env).trace) :
    e ∈ [Event.getModel, .newInterpreter 400000 400000] ∨ e ∈ (allocateStep env).trace ∨
      e ∈ (inputStep env).trace ∨ e ∈ (invokeStep env).trace ∨ e ∈ (outputStep env).trace := by
  rw [setup_trace env h] at he
  simp only [List.mem_append] at he
  rcases he with ((h1 | h1) | h1) | h1
  · exact Or.inl h1
  · exact Or.inr (Or.inl h1)
  · exact Or.inr (Or.inr (Or.inl h1))
  · split at h1
    · rcases List.mem_append.mp h1 with h2 | h2
      · exact Or.inr (Or.inr (Or.inr (Or.inl h2)))
      · exact Or.inr (Or.inr (Or.inr (Or.inr h2)))
    · simp at h1


/-! ## Schema-version check -/

/-- C1: when the schema version of the model differs from `TFLITE_SCHEMA_VERSION`,
`setup()` returns at the version check: the run ends without a fault and its
trace holds no construction of the interpreter, no `AllocateTensors`, no
`arena_used_bytes`, no `input(0)`, no store into the input tensor, no
`Invoke` and no `output(0)`. -/
theorem version_mismatch_stops_before_runtime (env : Env)
    (h : env.modelVersion ≠ env.schemaVersion) :
    (setup env).fault = none ∧ (setup env).trace.filter Event.usesInterpreter = [] := by
  rw [setup_mismatch env h]
  refine ⟨rfl, ?_⟩
  unfold versionMismatchReport
  cases env.arduino <;> simp [Event.usesInterpreter]

theorem version_mismatch_stops_before_runtime_witness :
    mismatchEnv.modelVersion ≠ mismatchEnv.schemaVersion ∧
    ((setup mismatchEnv).fault = none ∧
      (setup mismatchEnv).trace.filter Event.usesInterpreter = []) :=
  ⟨by decide, version_mismatch_stops_before_runtime mismatchEnv (by decide)⟩

/-- C6: when the schema version `v` of the model differs from
`TFLITE_SCHEMA_VERSION`, the errors reported by `setup()` are exactly one
schema-mismatch report, whose arguments are the found version `v` and then
the expected version. -/
theorem version_mismatch_reports_found_then_expected (env : Env)
    (h : env.modelVersion ≠ env.schemaVersion) :
    (setup env).trace.filter Event.isError =
      [.reportError "Model provided is schema version %d not equal to supported version %d."
        [(env.modelVersion : Int), (env.schemaVersion : Int)]] := by
  rw [setup_mismatch env h]
  unfold versionMismatchReport
  cases env.arduino <;> simp [Event.isError]

theorem version_mismatch_reports_found_then_expected_witness :
    mismatchEnv.modelVersion ≠ mismatchEnv.schemaVersion ∧
    (setup mismatchEnv).trace.filter Event.isError =
      [.reportError "Model provided is schema version %d not equal to supported version %d."
        [(mismatchEnv.modelVersion : Int), (mismatchEnv.schemaVersion : Int)]] :=
  ⟨by decide, version_mismatch_reports_found_then_expected mismatchEnv (by decide)⟩


/-! ## Allocation -/

/-- C8: in a run that reaches `AllocateTensors()`, when the status is
`kTfLiteOk` the trace holds, in this order and next to one another,
"Tensor allocation success", "Used bytes: ", the call of
`arena_used_bytes()` and the print of its value, and that call and that
label occur exactly once; when the status is anything else, neither the call
nor the label occurs. -/
theorem arena_used_bytes_exposed_iff_allocated (env : Env)
    (h : env.modelVersion = env.schemaVersion) :
    (env.allocateStatus = .kTfLiteOk →
      [Event.serialPrintln "Tensor allocation success", .serialPrint "Used bytes: ",
        .arenaUsedBytes, .serialPrintlnNum env.arenaUsedBytes] <:+: (setup env).trace ∧
      (setup env).trace.count .arenaUsedBytes = 1 ∧
      (setup env).trace.count (.serialPrint "Used bytes: ") = 1) ∧
    (env.allocateStatus ≠ .kTfLiteOk →
      (setup env).trace.count .arenaUsedBytes = 0 ∧
      (setup env).trace.count (.serialPrint "Used bytes: ") = 0) := by
  have hin1 : (inputStep env).trace.count .arenaUsedBytes = 0 :=
    List.count_eq_zero.mpr (not_mem_inputStep env _ (by simp) rfl rfl)
  have hin2 : (inputStep env).trace.count (.serialPrint "Used bytes: ") = 0 :=
    List.count_eq_zero.mpr (not_mem_inputStep env _ (by simp) (by decide) rfl)
  have hout1 : (outputStep env).trace.count .arenaUsedBytes = 0 :=
    List.count_eq_zero.mpr (not_mem_outputStep env _ (by simp) rfl)
  have hout2 : (outputStep env).trace.count (.serialPrint "Used bytes: ") = 0 :=
    List.count_eq_zero.mpr (not_mem_outputStep env _ (by simp) (by decide))
  have hinv1 : (invokeStep env).trace.count .arenaUsedBytes = 0 := by
    rw [invokeStep_trace]; split <;> simp
  have hinv2 : (invokeStep env).trace.count (.serialPrint "Used bytes: ") = 0 := by
    rw [invokeStep_trace]; split <;> simp
  constructor
  · intro hs
    have hal : (allocateStep env).trace =
        [.allocateTensors, .serialPrintln "Tensor allocation success",
         .serialPrint "Used bytes: ", .arenaUsedBytes,
         .serialPrintlnNum env.arenaUsedBytes] := by
      rw [allocateStep_trace, if_neg (not_not.mpr hs)]
    refine ⟨?_, ?_, ?_⟩
    · rw [setup_trace env h, hal]
      refine ⟨[.getModel, .newInterpreter 400000 400000, .allocateTensors],
        (inputStep env).trace ++
          (if (inputStep env).fault = none then
             (invokeStep env).trace ++ (outputStep env).trace
           else []), ?_⟩
      simp
    · rw [setup_count env h, hal, hin1, hinv1, hout1]
      simp
    · rw [setup_count env h, hal, hin2, hinv2, hout2]
      simp
  · intro hs
    have hal : (allocateStep env).trace =
        [.allocateTensors, .reportError "Tensor allocation failed" []] := by
      rw [allocateStep_trace, if_pos hs]
    refine ⟨?_, ?_⟩
    · rw [setup_count env h, hal, hin1, hinv1, hout1]
      simp
    · rw [setup_count env h, hal, hin2, hinv2, hout2]
      simp

theorem arena_used_bytes_exposed_iff_allocated_witness :
    emptyEnv.modelVersion = emptyEnv.schemaVersion ∧
    ((emptyEnv.allocateStatus = .kTfLiteOk →
      [Event.serialPrintln "Tensor allocation success", .serialPrint "Used bytes: ",
        .arenaUsedBytes, .serialPrintlnNum emptyEnv.arenaUsedBytes]
          <:+: (setup emptyEnv).trace ∧
      (setup emptyEnv).trace.count .arenaUsedBytes = 1 ∧
      (setup emptyEnv).trace.count (.serialPrint "Used bytes: ") = 1) ∧
    (emptyEnv.allocateStatus ≠ .kTfLiteOk →
      (setup emptyEnv).trace.count .arenaUsedBytes = 0 ∧
      (setup emptyEnv).trace.count (.serialPrint "Used bytes: ") = 0)) :=
  ⟨by decide, arena_used_bytes_exposed_iff_allocated emptyEnv (by decide)⟩

/-- C5 (as amended): when `AllocateTensors()` returns a status other than
`kTfLiteOk`, `setup()` reports the fixed message "Tensor allocation failed"
without any argument, and no error reported in that run carries a value:
neither a number of bytes required nor the arena capacity is reported. -/
theorem allocation_failure_report_has_no_arguments (env : Env)
    (h : env.modelVersion = env.schemaVersion)
    (hs : env.allocateStatus ≠ .kTfLiteOk) :
    Event.reportError "Tensor allocation failed" [] ∈ (setup env).trace ∧
    ∀ (format : String) (args : List Int),
      Event.reportError format args ∈ (setup env).trace → args = [] := by
  have hal : (allocateStep env).trace =
      [.allocateTensors, .reportError "Tensor allocation failed" []] := by
    rw [allocateStep_trace, if_pos hs]
  constructor
  · rw [setup_trace env h, hal]
    simp
  · intro format args he
    rcases mem_setup env h _ he with h1 | h1 | h1 | h1 | h1
    · simp at h1
    · rw [hal] at h1
      simp at h1
      exact h1.2
    · exact absurd h1 (not_mem_inputStep env _ (by simp) rfl rfl)
    · rw [invokeStep_trace] at h1
      split at h1 <;> simp at h1
      exact h1.2
    · exact absurd h1 (not_mem_outputStep env _ (by simp) rfl)

theorem allocation_failure_report_has_no_arguments_witness :
    allocFailEnv.modelVersion = allocFailEnv.schemaVersion ∧
    allocFailEnv.allocateStatus ≠ .kTfLiteOk ∧
    (Event.reportError "Tensor allocation failed" [] ∈ (setup allocFailEnv).trace ∧
     ∀ (format : String) (args : List Int),
       Event.reportError format args ∈ (setup allocFailEnv).trace → args = []) :=
  ⟨by decide, by decide,
    allocation_failure_report_has_no_arguments allocFailEnv (by decide) (by decide)⟩

/-! ## Construction of the interpreter -/

/-- C9 (as amended): the arena buffer is `RAM_SIZE` = 400000 bytes long;
`setup()` constructs the interpreter exactly once when the schema versions
agree and not at all when they differ; every construction is over the whole
of `tensor_arena`, with a capacity equal to the length of that buffer. -/
theorem interpreter_constructed_over_whole_arena (env : Env) :
    tensor_arena.length = RAM_SIZE ∧ RAM_SIZE = 400000 ∧
    (setup env).trace.countP Event.isNewInterpreter
      = (if env.modelVersion = env.schemaVersion then 1 else 0) ∧
    ∀ (a c : Nat), Event.newInterpreter a c ∈ (setup env).trace →
      a = tensor_arena.length ∧ c = a := by
  refine ⟨tensor_arena_length, rfl, ?_, ?_⟩
  · by_cases h : env.modelVersion = env.schemaVersion
    · rw [if_pos h, setup_trace env h]
      have hal : (allocateStep env).trace.countP Event.isNewInterpreter = 0 := by
        rw [allocateStep_trace]; split <;> simp [Event.isNewInterpreter]
      have hin : (inputStep env).trace.countP Event.isNewInterpreter = 0 := by
        rw [List.countP_eq_zero]
        intro e he
        rcases mem_inputStep env e he with rfl | h1 | h1
        · simp [Event.isNewInterpreter]
        · cases e <;> simp_all [Event.isNewInterpreter, Event.isReportOf]
        · cases e <;> simp_all [Event.isNewInterpreter, Event.isCopy]
      have hinv : (invokeStep env).trace.countP Event.isNewInterpreter = 0 := by
        rw [invokeStep_trace]; split <;> simp [Event.isNewInterpreter]
      have hout : (outputStep env).trace.countP Event.isNewInterpreter = 0 := by
        rw [List.countP_eq_zero]
        intro e he
        rcases mem_outputStep env e he with rfl | h1
        · simp [Event.isNewInterpreter]
        · cases e <;> simp_all [Event.isNewInterpreter, Event.isReportOf]
      simp only [List.countP_append, hal, hin]
      split
      · simp [List.countP_append, hinv, hout, Event.isNewInterpreter]
      · simp [Event.isNewInterpreter]
    · rw [if_neg h, setup_mismatch env h]
      unfold versionMismatchReport
      cases env.arduino <;> simp [Event.isNewInterpreter]
  · intro a c he
    rw [tensor_arena_length]
    by_cases h : env.modelVersion = env.schemaVersion
    · rcases mem_setup env h _ he with h1 | h1 | h1 | h1 | h1
      · simp at h1
        omega
      · rw [allocateStep_trace] at h1
        split at h1 <;> simp at h1
      · exact absurd h1 (not_mem_inputStep env _ (by simp) rfl rfl)
      · rw [invokeStep_trace] at h1
        split at h1 <;> simp at h1
      · exact absurd h1 (not_mem_outputStep env _ (by simp) rfl)
    · rw [setup_mismatch env h] at he
      unfold versionMismatchReport at he
      cases hA : env.arduino <;> rw [hA] at he <;> simp at he

/-- C9 (counterexample): on a model of schema version 2 with version 3
supported, `setup()` constructs no interpreter at all. -/
theorem interpreter_not_constructed_on_mismatch :
    mismatchEnv.modelVersion ≠ mismatchEnv.schemaVersion ∧
    (setup mismatchEnv).trace.countP Event.isNewInterpreter = 0 := by
  refine ⟨by decide, ?_⟩
  simp [setup, mismatchEnv, versionMismatchReport, Run.emit, Event.isNewInterpreter]

/-- C5 (counterexample): in a run whose allocation fails, the errors reported
are the two fixed messages, without arguments; no reported error carries the
capacity 400000. -/
theorem allocation_failure_report_lacks_quantities :
    allocFailEnv.allocateStatus ≠ .kTfLiteOk ∧
    (setup allocFailEnv).trace.filter Event.isError =
      [.reportError "Tensor allocation failed" [], .reportError "Invoke failed" []] ∧
    ¬ ∃ (format : String) (args : List Int),
        Event.reportError format args ∈ (setup allocFailEnv).trace ∧ (400000 : Int) ∈ args := by
  refine ⟨by decide, ?_, ?_⟩
  · simp [setup, allocFailEnv, emptyTensor, lstmOutput, Run.seq, Run.emit, allocateStep,
      inputStep, invokeStep, outputStep, reportTensor, reportDims, copyLoop, Event.isError]
  · simp [setup, allocFailEnv, emptyTensor, lstmOutput, Run.seq, Run.emit, allocateStep,
      inputStep, invokeStep, outputStep, reportTensor, reportDims, copyLoop]
    rintro format args (⟨-, rfl⟩ | ⟨-, rfl⟩) <;> simp


/-! ## Invoke -/

theorem count_pre (e : Event) (h1 : e ≠ .getModel) (h2 : ∀ a c, e ≠ .newInterpreter a c) :
    [Event.getModel, .newInterpreter 400000 400000].count e = 0 := by
  rw [List.count_eq_zero]
  intro he
  simp only [List.mem_cons, List.mem_singleton, List.not_mem_nil, or_false] at he
  rcases he with rfl | rfl
  · exact h1 rfl
  · exact h2 _ _ rfl

/-- A run whose trace holds `Invoke()` passed the version check and left the
input step without a fault. -/
theorem reaches_invoke (env : Env) (h : Event.invoke ∈ (setup env).trace) :
    env.modelVersion = env.schemaVersion ∧ (inputStep env).fault = none := by
  have hv : env.modelVersion = env.schemaVersion := by
    by_contra hne
    rw [setup_mismatch env hne] at h
    unfold versionMismatchReport at h
    cases hA : env.arduino <;> rw [hA] at h <;> simp at h
  refine ⟨hv, ?_⟩
  cases hf : (inputStep env).fault with
  | none => rfl
  | some f =>
    exfalso
    rw [setup_trace env hv, hf] at h
    simp only [List.mem_append] at h
    rcases h with ((h1 | h1) | h1) | h1
    · simp at h1
    · rw [allocateStep_trace] at h1
      split at h1 <;> simp at h1
    · exact not_mem_inputStep env .invoke (by simp) rfl rfl h1
    · simp at h1

/-- C7: in every run in which `Invoke()` is called, it is called once, "Invoke
failed" is reported if and only if the returned status is not `kTfLiteOk`,
"Invoke completed" is printed if and only if the status is `kTfLiteOk`, and
exactly one of the two is emitted, once. -/
theorem invoke_status_reported (env : Env) (h : Event.invoke ∈ (setup env).trace) :
    (setup env).trace.count .invoke = 1 ∧
    (Event.reportError "Invoke failed" [] ∈ (setup env).trace ↔
      env.invokeStatus ≠ .kTfLiteOk) ∧
    (Event.serialPrintln "Invoke completed" ∈ (setup env).trace ↔
      env.invokeStatus = .kTfLiteOk) ∧
    (setup env).trace.count (.reportError "Invoke failed" []) +
      (setup env).trace.count (.serialPrintln "Invoke completed") = 1 := by
  obtain ⟨hv, hf⟩ := reaches_invoke env h
  have key : ∀ e : Event, e ≠ .getModel → (∀ a c, e ≠ .newInterpreter a c) →
      e ∉ (allocateStep env).trace → e ≠ .input 0 → e.isReportOf "Input" = false →
      e.isCopy = false → e ≠ .output 0 → e.isReportOf "Output" = false →
      (setup env).trace.count e = (invokeStep env).trace.count e := by
    intro e h1 h2 h3 h4 h5 h6 h7 h8
    rw [setup_count env hv, count_pre e h1 h2, List.count_eq_zero.mpr h3,
      List.count_eq_zero.mpr (not_mem_inputStep env e h4 h5 h6), if_pos hf,
      List.count_eq_zero.mpr (not_mem_outputStep env e h7 h8)]
    simp
  have hal : ∀ e : Event, e ≠ .allocateTensors →
      e ≠ .reportError "Tensor allocation failed" [] →
      e ≠ .serialPrintln "Tensor allocation success" → e ≠ .serialPrint "Used bytes: " →
      e ≠ .arenaUsedBytes → e ≠ .serialPrintlnNum env.arenaUsedBytes →
      e ∉ (allocateStep env).trace := by
    intro e h1 h2 h3 h4 h5 h6 he
    rw [allocateStep_trace] at he
    split at he <;> simp at he <;> tauto
  have c1 : (setup env).trace.count .invoke = 1 := by
    rw [key .invoke (by simp) (by simp)
      (hal _ (by simp) (by simp) (by simp) (by simp) (by simp) (by simp))
      (by simp) rfl rfl (by simp) rfl, invokeStep_trace]
    split <;> simp
  have c2 : (setup env).trace.count (.reportError "Invoke failed" []) =
      if env.invokeStatus ≠ .kTfLiteOk then 1 else 0 := by
    rw [key (.reportError "Invoke failed" []) (by simp) (by simp)
      (hal _ (by simp) (by decide) (by simp) (by simp) (by simp) (by simp))
      (by simp) rfl rfl (by simp) rfl, invokeStep_trace]
    split <;> simp
  have c3 : (setup env).trace.count (.serialPrintln "Invoke completed") =
      if env.invokeStatus ≠ .kTfLiteOk then 0 else 1 := by
    rw [key (.serialPrintln "Invoke completed") (by simp) (by simp)
      (hal _ (by simp) (by simp) (by decide) (by simp) (by simp) (by simp))
      (by simp) rfl rfl (by simp) rfl, invokeStep_trace]
    split <;> simp
  refine ⟨c1, ?_, ?_, ?_⟩
  · rw [← List.count_pos_iff, c2]
    split <;> simp_all
  · rw [← List.count_pos_iff, c3]
    split <;> simp_all
  · rw [c2, c3]
    split <;> rfl

theorem invoke_status_reported_witness :
    Event.invoke ∈ (setup emptyEnv).trace ∧
    ((setup emptyEnv).trace.count .invoke = 1 ∧
    (Event.reportError "Invoke failed" [] ∈ (setup emptyEnv).trace ↔
      emptyEnv.invokeStatus ≠ .kTfLiteOk) ∧
    (Event.serialPrintln "Invoke completed" ∈ (setup emptyEnv).trace ↔
      emptyEnv.invokeStatus = .kTfLiteOk) ∧
    (setup emptyEnv).trace.count (.reportError "Invoke failed" []) +
      (setup emptyEnv).trace.count (.serialPrintln "Invoke completed") = 1) :=
  have hmem : Event.invoke ∈ (setup emptyEnv).trace := by
    simp [setup, emptyEnv, emptyTensor, lstmOutput, Run.seq, Run.emit, allocateStep,
      inputStep, invokeStep, outputStep, reportTensor, reportDims, copyLoop]
  ⟨hmem, invoke_status_reported emptyEnv hmem⟩


/-! ## Descriptor reports -/

/-- C10: for tensors whose shape records hold their `n` (resp. `m`) announced
dimensions, the descriptor report emits the rank, then the byte length, then
one entry (index, dimension) per index below the rank, in increasing order,
and reads no other entry of `dims->data` (it ends without a fault).  In a run
of `setup()` past the version check the report of the input tensor is part
of the trace, and so is the report of the output tensor when the copy loop
had nothing to copy. -/
theorem descriptor_report_lists_rank_bytes_dims (env : Env) (tin tout : TfLiteTensor)
    (n m : Nat) (hv : env.modelVersion = env.schemaVersion)
    (hin : env.input0 = some tin) (hn : tin.dims.size = n) (hnlen : n ≤ tin.dims.data.length)
    (hout : env.output0 = some tout) (hm : tout.dims.size = m)
    (hmlen : m ≤ tout.dims.data.length) :
    reportTensor "Input" tin = ⟨expectedReport "Input" n tin, none⟩ ∧
    reportTensor "Output" tout = ⟨expectedReport "Output" m tout, none⟩ ∧
    (expectedReport "Input" n tin).length = 4 + 4 * n ∧
    (expectedReport "Output" m tout).length = 4 + 4 * m ∧
    expectedReport "Input" n tin <:+: (setup env).trace ∧
    (tin.bytes = 0 → expectedReport "Output" m tout <:+: (setup env).trace) := by
  have hlen : ∀ (name : String) (k : Nat) (t : TfLiteTensor), k ≤ t.dims.data.length →
      (expectedReport name k t).length = 4 + 4 * k := by
    intro name k t hk
    unfold expectedReport
    rw [List.length_append, length_dimEntries, List.length_take]
    simp only [List.length_cons, List.length_nil]
    omega
  refine ⟨reportTensor_eq "Input" tin n hn hnlen, reportTensor_eq "Output" tout m hm hmlen,
    hlen _ _ _ hnlen, hlen _ _ _ hmlen, ?_, ?_⟩
  · rw [setup_trace env hv, inputStep_trace_eq env tin n hin hn hnlen]
    refine ⟨[.getModel, .newInterpreter 400000 400000] ++ (allocateStep env).trace ++
        [.input 0], (copyLoop input_data tin.bytes 0).trace ++
        (if (inputStep env).fault = none then
           (invokeStep env).trace ++ (outputStep env).trace
         else []), ?_⟩
    simp only [List.append_assoc]
  · intro hb
    have hf : (inputStep env).fault = none := by
      rw [inputStep_fault_eq env tin n hin hn hnlen]
      exact (copyLoop_ok_iff input_data tin.bytes).mpr hb
    rw [setup_trace env hv, if_pos hf, outputStep_eq env tout m hout hm hmlen]
    refine ⟨[.getModel, .newInterpreter 400000 400000] ++ (allocateStep env).trace ++
        (inputStep env).trace ++ (invokeStep env).trace ++ [.output 0], [], ?_⟩
    simp

theorem descriptor_report_lists_rank_bytes_dims_witness :
    emptyEnv.modelVersion = emptyEnv.schemaVersion ∧
    emptyEnv.input0 = some emptyTensor ∧ emptyTensor.dims.size = (1 : Nat) ∧
    1 ≤ emptyTensor.dims.data.length ∧
    emptyEnv.output0 = some lstmOutput ∧ lstmOutput.dims.size = (2 : Nat) ∧
    2 ≤ lstmOutput.dims.data.length ∧
    (reportTensor "Input" emptyTensor = ⟨expectedReport "Input" 1 emptyTensor, none⟩ ∧
    reportTensor "Output" lstmOutput = ⟨expectedReport "Output" 2 lstmOutput, none⟩ ∧
    (expectedReport "Input" 1 emptyTensor).length = 4 + 4 * 1 ∧
    (expectedReport "Output" 2 lstmOutput).length = 4 + 4 * 2 ∧
    expectedReport "Input" 1 emptyTensor <:+: (setup emptyEnv).trace ∧
    (emptyTensor.bytes = 0 → expectedReport "Output" 2 lstmOutput <:+: (setup emptyEnv).trace)) :=
  ⟨by decide, rfl, by decide, by decide, rfl, by decide, by decide,
    descriptor_report_lists_rank_bytes_dims emptyEnv emptyTensor lstmOutput 1 2
      (by decide) rfl (by decide) (by decide) rfl (by decide) (by decide)⟩

/-! ## The copy loop inside `setup()` -/

/-- C4 (as amended): `setup()` compares the byte length of the input tensor
with nothing and reports no shape mismatch: in a run past the version check
the only errors reported are "Tensor allocation failed" and "Invoke failed",
both without arguments; the copy loop is entered whatever the byte length,
so that a tensor of at least four bytes has `input_data[0]` stored into its
element 0, and a tensor of zero bytes is followed by the call of `Invoke()`. -/
theorem copy_starts_without_length_check (env : Env) (t : TfLiteTensor) (n : Nat)
    (hv : env.modelVersion = env.schemaVersion) (hin : env.input0 = some t)
    (hn : t.dims.size = n) (hnlen : n ≤ t.dims.data.length) :
    (∀ (format : String) (args : List Int),
      Event.reportError format args ∈ (setup env).trace →
        (format = "Tensor allocation failed" ∨ format = "Invoke failed") ∧ args = []) ∧
    (4 ≤ t.bytes → Event.writeInputF 0 0 ∈ (setup env).trace) ∧
    (t.bytes = 0 → Event.invoke ∈ (setup env).trace) := by
  refine ⟨?_, ?_, ?_⟩
  · intro format args he
    rcases mem_setup env hv _ he with h1 | h1 | h1 | h1 | h1
    · simp at h1
    · rw [allocateStep_trace] at h1
      split at h1 <;> simp at h1
      exact ⟨Or.inl h1.1, h1.2⟩
    · exact absurd h1 (not_mem_inputStep env (.reportError format args) (by simp) rfl rfl)
    · rw [invokeStep_trace] at h1
      split at h1 <;> simp at h1
      exact ⟨Or.inr h1.1, h1.2⟩
    · exact absurd h1 (not_mem_outputStep env (.reportError format args) (by simp) rfl)
  · intro hb
    rw [setup_trace env hv, inputStep_trace_eq env t n hin hn hnlen,
      copyLoop_first t.bytes hb, Run.seq_emit]
    simp
  · intro hb
    have hf : (inputStep env).fault = none := by
      rw [inputStep_fault_eq env t n hin hn hnlen]
      exact (copyLoop_ok_iff input_data t.bytes).mpr hb
    rw [setup_trace env hv, if_pos hf, invokeStep_trace]
    split <;> simp

theorem copy_starts_without_length_check_witness :
    oneFloatEnv.modelVersion = oneFloatEnv.schemaVersion ∧
    oneFloatEnv.input0 = some oneFloatTensor ∧ oneFloatTensor.dims.size = (1 : Nat) ∧
    1 ≤ oneFloatTensor.dims.data.length ∧
    ((∀ (format : String) (args : List Int),
      Event.reportError format args ∈ (setup oneFloatEnv).trace →
        (format = "Tensor allocation failed" ∨ format = "Invoke failed") ∧ args = []) ∧
    (4 ≤ oneFloatTensor.bytes → Event.writeInputF 0 0 ∈ (setup oneFloatEnv).trace) ∧
    (oneFloatTensor.bytes = 0 → Event.invoke ∈ (setup oneFloatEnv).trace)) :=
  ⟨by decide, rfl, by decide, by decide,
    copy_starts_without_length_check oneFloatEnv oneFloatTensor 1
      (by decide) rfl (by decide) (by decide)⟩

/-- C4 (counterexample): a four-byte input tensor (not 62100 bytes) has its
element 0 written and no error is reported; a zero-byte input tensor (not
62100 bytes either) is followed by `Invoke()` and by the report of the
output tensor, again without any error. -/
theorem no_shape_mismatch_is_raised :
    oneFloatTensor.bytes ≠ 62100 ∧
    Event.writeInputF 0 0 ∈ (setup oneFloatEnv).trace ∧
    (setup oneFloatEnv).trace.filter Event.isError = [] ∧
    emptyTensor.bytes ≠ 62100 ∧
    Event.invoke ∈ (setup emptyEnv).trace ∧
    Event.serialPrint "Output size: " ∈ (setup emptyEnv).trace ∧
    (setup emptyEnv).trace.filter Event.isError = [] := by
  refine ⟨by decide, ?_, ?_, by decide, ?_, ?_, ?_⟩
  · simp [setup, oneFloatEnv, emptyEnv, oneFloatTensor, lstmOutput, Run.seq, Run.emit,
      allocateStep, inputStep, invokeStep, outputStep, reportTensor, reportDims, copyLoop,
      input_data_get]
  · simp [setup, oneFloatEnv, emptyEnv, oneFloatTensor, lstmOutput, Run.seq, Run.emit,
      allocateStep, inputStep, invokeStep, outputStep, reportTensor, reportDims, copyLoop,
      input_data_get, Event.isError]
  · simp [setup, emptyEnv, emptyTensor, lstmOutput, Run.seq, Run.emit,
      allocateStep, inputStep, invokeStep, outputStep, reportTensor, reportDims, copyLoop]
  · simp [setup, emptyEnv, emptyTensor, lstmOutput, Run.seq, Run.emit,
      allocateStep, inputStep, invokeStep, outputStep, reportTensor, reportDims, copyLoop]
  · simp [setup, emptyEnv, emptyTensor, lstmOutput, Run.seq, Run.emit,
      allocateStep, inputStep, invokeStep, outputStep, reportTensor, reportDims, copyLoop,
      Event.isError]

/-- C3 (the code at the scenario): on the input tensor of the example
(float32, shape `[1,3105,5]`, 62100 bytes) the copy loop copies the 15525
elements (15525 reads and 15525 stores) and then goes on to index 15525,
which lies outside `input_data`: the run ends in that out-of-bounds read. -/
theorem copy_loop_overruns_in_scenario :
    (copyLoop input_data lstmInput.bytes 0).trace.length = 2 * 15525 ∧
    (copyLoop input_data lstmInput.bytes 0).fault = some (.inputDataOutOfBounds 15525) ∧
    (setup scenarioEnv).fault = some (.inputDataOutOfBounds 15525) := by
  have hs := copyLoop_scenario 15525 0 (by omega)
  have hb : lstmInput.bytes = 62100 := rfl
  have hin : (inputStep scenarioEnv).fault = some (.inputDataOutOfBounds 15525) := by
    rw [inputStep_fault_eq scenarioEnv lstmInput 3 rfl (by decide) (by decide), hb]
    exact hs.1
  rw [hb]
  refine ⟨hs.2, hs.1, ?_⟩
  rw [setup_fault scenarioEnv rfl, hin]

/-- C2 (the code after a failed allocation): with `AllocateTensors()`
answering `kTfLiteError`, `setup()` reports the failure and goes on: on an
empty input tensor it calls `input(0)`, `Invoke()` and `output(0)`; on the
input tensor of the example it calls `input(0)` and stores into element 0. -/
theorem setup_continues_after_failed_allocation :
    allocFailEnv.allocateStatus ≠ .kTfLiteOk ∧
    (setup allocFailEnv).trace =
      [.getModel, .newInterpreter 400000 400000, .allocateTensors,
       .reportError "Tensor allocation failed" [], .input 0,
       .serialPrint "Input size: ", .serialPrintlnNum 1,
       .serialPrint "Input bytes: ", .serialPrintlnNum 0,
       .serialPrint "Input dim ", .serialPrintNum 0, .serialPrint ": ", .serialPrintlnNum 0,
       .invoke, .reportError "Invoke failed" [], .output 0,
       .serialPrint "Output size: ", .serialPrintlnNum 2,
       .serialPrint "Output bytes: ", .serialPrintlnNum 4,
       .serialPrint "Output dim ", .serialPrintNum 0, .serialPrint ": ", .serialPrintlnNum 1,
       .serialPrint "Output dim ", .serialPrintNum 1, .serialPrint ": ", .serialPrintlnNum 1] ∧
    allocFailScenarioEnv.allocateStatus ≠ .kTfLiteOk ∧
    Event.input 0 ∈ (setup allocFailScenarioEnv).trace ∧
    Event.writeInputF 0 0 ∈ (setup allocFailScenarioEnv).trace := by
  refine ⟨by decide, ?_, by decide, ?_, ?_⟩
  · simp [setup, allocFailEnv, emptyTensor, lstmOutput, Run.seq, Run.emit, allocateStep,
      inputStep, invokeStep, outputStep, reportTensor, reportDims, copyLoop, tensor_arena_length,
      RAM_SIZE]
  · rw [setup_trace allocFailScenarioEnv rfl,
      inputStep_trace_eq allocFailScenarioEnv lstmInput 3 rfl (by decide) (by decide)]
    simp
  · rw [setup_trace allocFailScenarioEnv rfl,
      inputStep_trace_eq allocFailScenarioEnv lstmInput 3 rfl (by decide) (by decide),
      copyLoop_first lstmInput.bytes (by decide), Run.seq_emit]
    simp

end BasicInference
